import Mathlib

/-!
Verification of the arvo-health/kit error-handling library.

The Go error values that flow through the library are modelled as an
inductive type capturing their dynamic type and unwrap structure, so
that the semantics of the standard library's `errors.As`,
`errors.Unwrap` and `errors.Join` traversals can be embedded faithfully.
-/

namespace Kit

/-- Model of the Go `error` values the library inspects.

* `base` — an opaque error such as one produced by `errors.New`.
* `domain` — the domain error type `kit.Error` of
  `src/unnamed/part_007`: code, formatted message, details, optional
  cause. The `msg` field stands for the result of `String()`, that is
  `fmt.Sprintf(format, formatargs...)` — every observable use of
  `format` and `formatargs` goes through `String()`, so the model
  carries the formatted text. `Error()` is `String()` plus
  `": " + cause.Error()` when a cause is present, `Cause()` is the
  cause's text or empty, and `Unwrap` exposes the cause.
* `validation` — the type `kit.ValidationErrors` (its definition is not
  part of the sources, only its tests and callers; Modelled from the
  spec: a named list of validation failure strings plus a summary
  message, `Error()` is the summary message, `Validations()` the list,
  and no wrapped cause — matching the behaviour the
  `TestValidationErrors` test of `src/unnamed/part_007` asserts).
* `valErr` — the map-based validation error of `src/validator/error.go`
  (identical to `kit.ValidationError` of `src/validator_error.go`):
  message, a `map[string]string` of field validations, optional cause.
* `wrap` — a `fmt.Errorf("...: %w", inner)` wrapper; `pre` is the text
  placed before the inner error's text.
* `joined` — an `errors.Join` value exposing `Unwrap() []error`.
* `respErr` — the `responseerror.ResponseError` of
  `src/responseerror/response_error.go` viewed as an error value:
  code, category, message, details map, status code, optional cause. -/
inductive GoError where
  | base (msg : String)
  | domain (code : String) (msg : String) (details : List String) (cause : Option GoError)
  | validation (msg : String) (validations : List String)
  | valErr (msg : String) (validations : List (String × String)) (cause : Option GoError)
  | wrap (pre : String) (inner : GoError)
  | joined (errs : List GoError)
  | respErr (code category message : String) (details : List (String × String))
      (statusCode : Int) (cause : Option GoError)

mutual

/-- Boolean structural equality on error values, modelling Go's `==` on
comparable error values (the registry's map-key comparison). -/
def GoError.beq : GoError → GoError → Bool
  | .base m, .base m2 => m == m2
  | .domain c m d k, .domain c2 m2 d2 k2 =>
      c == c2 && m == m2 && d == d2 && GoError.beqOpt k k2
  | .validation m v, .validation m2 v2 => m == m2 && v == v2
  | .valErr m v k, .valErr m2 v2 k2 => m == m2 && v == v2 && GoError.beqOpt k k2
  | .wrap p i, .wrap p2 i2 => p == p2 && GoError.beq i i2
  | .joined es, .joined es2 => GoError.beqList es es2
  | .respErr c g m d s k, .respErr c2 g2 m2 d2 s2 k2 =>
      c == c2 && g == g2 && m == m2 && d == d2 && s == s2 && GoError.beqOpt k k2
  | _, _ => false

def GoError.beqOpt : Option GoError → Option GoError → Bool
  | none, none => true
  | some a, some b => GoError.beq a b
  | _, _ => false

def GoError.beqList : List GoError → List GoError → Bool
  | [], [] => true
  | a :: as, b :: bs => GoError.beq a b && GoError.beqList as bs
  | _, _ => false

end

instance : BEq GoError := ⟨GoError.beq⟩

mutual

/-- The `Error()` method of each modelled error value. -/
def GoError.errString : GoError → String
  | .base m => m
  | .domain _ m _ none => m
  | .domain _ m _ (some c) => m ++ ": " ++ c.errString
  | .validation m _ => m
  | .valErr m _ none => m
  | .valErr m _ (some c) => m ++ ": " ++ c.errString
  | .wrap p inner => p ++ inner.errString
  | .joined es => GoError.errStringList es
  | .respErr code _ message _ _ _ => "[" ++ code ++ "] " ++ message

/-- `errors.Join`'s `Error()`: the texts of the joined errors separated by newlines. -/
def GoError.errStringList : List GoError → String
  | [] => ""
  | [e] => e.errString
  | e :: es => e.errString ++ "\n" ++ GoError.errStringList es

end

/-- `errors.Unwrap`: the result of the `Unwrap() error` method, `none` when the
method is absent or has the `Unwrap() []error` signature. -/
def GoError.unwrapOne : GoError → Option GoError
  | .base _ => none
  | .domain _ _ _ c => c
  | .validation _ _ => none
  | .valErr _ _ c => c
  | .wrap _ inner => some inner
  | .joined _ => none
  | .respErr _ _ _ _ _ c => c

mutual

/-- `errors.As(err, &e)` with `e : *kit.Error` (target the `domain`
constructor): depth-first over the unwrap tree, the node itself first. -/
def GoError.findDomain : GoError → Option (String × String × List String × Option GoError)
  | .base _ => none
  | .domain c m d k => some (c, m, d, k)
  | .validation _ _ => none
  | .valErr _ _ none => none
  | .valErr _ _ (some k) => k.findDomain
  | .wrap _ inner => inner.findDomain
  | .joined es => GoError.findDomainList es
  | .respErr _ _ _ _ _ none => none
  | .respErr _ _ _ _ _ (some k) => k.findDomain

def GoError.findDomainList : List GoError → Option (String × String × List String × Option GoError)
  | [] => none
  | e :: es =>
    match e.findDomain with
    | some r => some r
    | none => GoError.findDomainList es

end

mutual

/-- `errors.As(err, &errs)` with `errs : *kit.ValidationErrors` (target the
`validation` constructor). -/
def GoError.findValidation : GoError → Option (String × List String)
  | .base _ => none
  | .domain _ _ _ none => none
  | .domain _ _ _ (some k) => k.findValidation
  | .validation m vs => some (m, vs)
  | .valErr _ _ none => none
  | .valErr _ _ (some k) => k.findValidation
  | .wrap _ inner => inner.findValidation
  | .joined es => GoError.findValidationList es
  | .respErr _ _ _ _ _ none => none
  | .respErr _ _ _ _ _ (some k) => k.findValidation

def GoError.findValidationList : List GoError → Option (String × List String)
  | [] => none
  | e :: es =>
    match e.findValidation with
    | some r => some r
    | none => GoError.findValidationList es

end

/-- `kit.NewErrorf` of `src/unnamed/part_007`: a domain error with the given
code and no details or cause; `msg` is the formatted message (the value of
`String()`). -/
def NewErrorf (code msg : String) : GoError :=
  .domain code msg [] none

/-- `kit.Error.WithDetails` of `src/unnamed/part_007`: sets the details.
(`WithDetails` is a method on `*Error`; on the other error types the
receiver cannot arise.) -/
def GoError.withDetails (e : GoError) (details : List String) : GoError :=
  match e with
  | .domain code msg _ cause => .domain code msg details cause
  | e => e

/-- `kit.Error.WrapCause` of `src/unnamed/part_007`: records the cause and,
when the cause unwraps to a `*ValidationErrors`, copies its validations
into the details. (`WrapCause` is a method on `*Error`; on the other error
types the receiver cannot arise.) -/
def GoError.wrapCause (e : GoError) (cause : GoError) : GoError :=
  match e with
  | .domain code msg details _ =>
    match cause.findValidation with
    | some (_, vs) => .domain code msg vs (some cause)
    | none => .domain code msg details (some cause)
  | e => e

/-- The `kit.ResponseError` of `src/error_response.go`. -/
structure ResponseError where
  code : String
  status : Int
  message : String
  cause : String
  details : List String
  err : GoError

/-- The fixed generic message of the `UNKNOWN` branch of `NewResponseError`. -/
def unknownMessage : String :=
  "Ocorreu um erro inesperado. Tente novamente mais tarde ou contate o administrador."

/-- `kit.NewResponseError` of `src/error_response.go`: maps a status and an
error to a `ResponseError`, checking `*Error` first, then
`*ValidationErrors`, then falling back to `UNKNOWN`. -/
def NewResponseError (status : Int) (err : GoError) : ResponseError :=
  match err.findDomain with
  | some (code, msg, details, cause) =>
    { code := code, status := status, message := msg,
      cause := match cause with | none => "" | some c => c.errString,
      details := details, err := err }
  | none =>
    match err.findValidation with
    | some (msg, validations) =>
      { code := "VALIDATION", status := status, message := msg,
        cause := "", details := validations, err := err }
    | none =>
      { code := "UNKNOWN", status := status, message := unknownMessage,
        cause := err.errString, details := [], err := err }

/-- The `kit.HTTPError` of `src/http_error.go`. -/
structure HTTPError where
  slug : String
  message : String
  details : List String
  status : Int

/-- `kit.NewHTTPError` of `src/http_error.go`: defaults status `0` to `500`,
an empty slug to `"unknown-error"`, a `nil` error to `errors.New("unknown
error")`, and extracts details when the error unwraps to
`*ValidationErrors`. -/
def NewHTTPError (status : Int) (slug : String) (err : Option GoError) : HTTPError :=
  let status := if status == 0 then 500 else status
  let slug := if slug == "" then "unknown-error" else slug
  let e := err.getD (.base "unknown error")
  let details := match e.findValidation with
    | some (_, vs) => vs
    | none => []
  { slug := slug, message := e.errString, details := details, status := status }

namespace Responseerror

/-- The `responseerror.ResponseError` of `src/responseerror/response_error.go`
as a value (its fields; the registry stores and `Get` returns these). -/
structure RespError where
  code : String
  category : String
  message : String
  details : List (String × String)
  statusCode : Int
  err : Option GoError

/-- `deriveCategoryFromCode` of `src/responseerror/response_error.go`:
category from the fifth character of the code, `"unknown"` when the code is
shorter than five characters or the letter is unrecognized. -/
def deriveCategoryFromCode (code : String) : String :=
  if code.length < 5 then "unknown"
  else
    match code.toList.get? 4 with
    | some 'V' => "validation"
    | some 'B' => "business"
    | some 'N' => "notfound"
    | some 'R' => "badrequest"
    | some 'P' => "permission"
    | some 'A' => "authentication"
    | some 'I' => "internal"
    | some 'E' => "external"
    | _ => "unknown"

/-- `responseerror.New`: `nil` when the error is `nil` or the code empty,
else a `ResponseError` with derived category, the error's text as message,
and the first optional status (default 500). -/
def New (err : Option GoError) (code : String) (status : List Int) : Option RespError :=
  match err with
  | none => none
  | some e =>
    if code = "" then none
    else
      some { code := code, category := deriveCategoryFromCode code,
             message := e.errString, details := [],
             statusCode := status.headD 500, err := some e }

mutual

/-- `errors.As(err, &responseError)` with target `*responseerror.ResponseError`
(the `respErr` constructor). -/
def findRespError : GoError → Option RespError
  | .base _ => none
  | .domain _ _ _ none => none
  | .domain _ _ _ (some k) => findRespError k
  | .validation _ _ => none
  | .valErr _ _ none => none
  | .valErr _ _ (some k) => findRespError k
  | .wrap _ inner => findRespError inner
  | .joined es => findRespErrorList es
  | .respErr c g m d s k =>
    some { code := c, category := g, message := m, details := d,
           statusCode := s, err := k }

def findRespErrorList : List GoError → Option RespError
  | [] => none
  | e :: es =>
    match findRespError e with
    | some r => some r
    | none => findRespErrorList es

end

/-- `errors.As(err, &joinedErrors)` with the interface target
`interface \x7b Unwrap() []error \x7d`: the first node of the unwrap tree whose
dynamic type is an `errors.Join` value. -/
def findJoined : GoError → Option (List GoError)
  | .base _ => none
  | .domain _ _ _ none => none
  | .domain _ _ _ (some k) => findJoined k
  | .validation _ _ => none
  | .valErr _ _ none => none
  | .valErr _ _ (some k) => findJoined k
  | .wrap _ inner => findJoined inner
  | .joined es => some es
  | .respErr _ _ _ _ _ none => none
  | .respErr _ _ _ _ _ (some k) => findJoined k

/-- The `err.(interface \x7b Validations() map[string]string \x7d)` direct type
assertion of `Registry.Get` (and of the map-detail `NewResponseError`
revision): only the map-based validation error type implements it. -/
def extractDetails : GoError → List (String × String)
  | .valErr _ vs _ => vs
  | _ => []

/-- The registry's `map[error]*ResponseError`, as an association list. -/
abbrev Registry := List (GoError × RespError)

/-- Map lookup by error key. -/
def lookupReg (r : Registry) (e : GoError) : Option RespError :=
  (r.find? (fun p => p.1 == e)).map (fun p => p.2)

/-- In-place mutation of the `*ResponseError` stored under a key: every
binding of the key is updated to the new value (the Go code mutates the
pointed-to value, so the map entry changes with it). -/
def setReg (r : Registry) (e : GoError) (v : RespError) : Registry :=
  r.map (fun p => if p.1 == e then (p.1, v) else p)

/-- `Registry.Add`: registers `New err code status`, ignoring invalid inputs. -/
def addReg (r : Registry) (err : Option GoError) (code : String) (status : List Int) : Registry :=
  match err, New err code status with
  | some e, some respErr => (e, respErr) :: r
  | _, _ => r

/-- The loop of `Registry.Get` over the elements of a joined error: the first
registered element, with its index and key. -/
def firstRegistered (r : Registry) : List GoError → Option (Nat × GoError × RespError)
  | [] => none
  | e :: es =>
    match lookupReg r e with
    | some t => some (0, e, t)
    | none => (firstRegistered r es).map (fun p => (p.1 + 1, p.2))

/-- The default branch of `Registry.Get`: `ERR-V001` with status 422 carrying
the extracted details when there are any, else `ERR-I000` (default 500). -/
def registryFallback (r : Registry) (err : GoError) (d : List (String × String)) :
    Option (RespError × Registry) :=
  if d.isEmpty then
    (New (some err) "ERR-I000" []).map (fun resp => (resp, r))
  else
    (New (some err) "ERR-V001" [422]).map (fun resp => ({ resp with details := d }, r))

/-- The joined-errors branch of `Registry.Get`: on a registered element at
index `i`, the code reads `unwrappedErrs[i+1]` with no bounds check; `none`
models the index-out-of-range panic when `i` is the last index. -/
def registryGetJoined (r : Registry) (err : GoError) (d : List (String × String)) :
    Option (RespError × Registry) :=
  match findJoined err with
  | some es =>
    match firstRegistered r es with
    | some (i, key, t) =>
      match es.get? (i + 1) with
      | some nxt =>
        let t3 := { t with message := t.message ++ ": " ++ nxt.errString, details := d }
        some (t3, setReg r key t3)
      | none => none
    | none => registryFallback r err d
  | none => registryFallback r err d

/-- `Registry.Get` of `src/responseerror/response_error_registry.go`. The
returned registry reflects the in-place mutations of registered templates;
`none` models a panic. -/
def registryGet (r : Registry) (err : GoError) : Option (RespError × Registry) :=
  match findRespError err with
  | some re => some (re, r)
  | none =>
    let d := extractDetails err
    match lookupReg r err with
    | some t =>
      let t1 := { t with details := d }
      some (t1, setReg r err t1)
    | none =>
      match err.unwrapOne with
      | some u =>
        match lookupReg r u with
        | some t =>
          let t2 := { t with message := err.errString, details := d }
          some (t2, setReg r u t2)
        | none => registryGetJoined r err d
      | none => registryGetJoined r err d

end Responseerror

/-- The map-detail `kit.ResponseError` revision of `src/unnamed/part_005`. -/
structure ResponseErrorMapDetail where
  code : String
  message : String
  details : List (String × String)
  statusCode : Int
  err : GoError

/-- `NewResponseError` of `src/unnamed/part_005`: `nil` when the error is
`nil` or the code empty; otherwise message from the error's text, details
from the direct `Validations() map[string]string` assertion, and the first
optional status (default 500). -/
def NewResponseErrorMapDetail (err : Option GoError) (code : String) (status : List Int) :
    Option ResponseErrorMapDetail :=
  match err with
  | none => none
  | some e =>
    if code = "" then none
    else
      some { code := code, message := e.errString,
             details := Responseerror.extractDetails e,
             statusCode := status.headD 500, err := e }

/-- Insertion into a Go `map[string]string`: overwrite the binding when the
key is present, append it otherwise. -/
def mapInsert (m : List (String × String)) (k v : String) : List (String × String) :=
  if m.any (fun p => p.1 == k) then
    m.map (fun p => if p.1 == k then (k, v) else p)
  else
    m ++ [(k, v)]

/-- The map-based validation error of `src/validator/error.go` (the type
`validator.Error`; `kit.ValidationError` of `src/validator_error.go` is
verbatim identical): summary message, `map[string]string` of field
validations, optional wrapped cause, and the `tmpField` used by the
`Field`/`Err` chaining pattern. -/
structure ValidationError where
  message : String
  validations : List (String × String)
  err : Option GoError
  tmpField : String

/-- `validator.NewError` / `kit.NewValidationError`: initializes the message
and inserts each initial `(Field, Validation)` pair into the map. -/
def NewValidationError (message : String) (validations : List (String × String)) :
    ValidationError :=
  { message := message,
    validations := validations.foldl (fun m p => mapInsert m p.1 p.2) [],
    err := none, tmpField := "" }

/-- `Field`: records the field name for the next `Err` call. -/
def ValidationError.field (e : ValidationError) (f : String) : ValidationError :=
  { e with tmpField := f }

/-- `Err`: inserts `validations[tmpField] = validation`. -/
def ValidationError.errOp (e : ValidationError) (validation : String) : ValidationError :=
  { e with validations := mapInsert e.validations e.tmpField validation }

/-- `AddValidation`: inserts `validations[field] = validation`. -/
def ValidationError.addValidation (e : ValidationError) (f v : String) : ValidationError :=
  { e with validations := mapInsert e.validations f v }

/-- `AddValidations`: inserts each `(Field, Validation)` pair. -/
def ValidationError.addValidations (e : ValidationError) (vs : List (String × String)) :
    ValidationError :=
  { e with validations := vs.foldl (fun m p => mapInsert m p.1 p.2) e.validations }

/-- `HasValidations`: `len(e.validations) > 0`. -/
def ValidationError.hasValidations (e : ValidationError) : Bool :=
  decide (0 < e.validations.length)

/-- One step of an arbitrary append sequence on a validation error. -/
inductive VOp where
  | field (f : String)
  | errOp (v : String)
  | addValidation (f v : String)
  | addValidations (vs : List (String × String))

/-- Apply one builder step. -/
def ValidationError.applyOp (e : ValidationError) : VOp → ValidationError
  | .field f => e.field f
  | .errOp v => e.errOp v
  | .addValidation f v => e.addValidation f v
  | .addValidations vs => e.addValidations vs

/-- Apply a sequence of builder steps. -/
def ValidationError.applyOps (e : ValidationError) (ops : List VOp) : ValidationError :=
  ops.foldl ValidationError.applyOp e

/-- Header lookup: Fiber's `c.Get` returns the header's value, or the empty
string when the header is absent. -/
def headerGet (hs : List (String × String)) (k : String) : String :=
  ((hs.find? (fun p => p.1 == k)).map (fun p => p.2)).getD ""

/-- The inbound request-id header key read by the logger middleware. -/
def RequestIDHeaderKey : String := "X-Request-Id"

/-- The observable request-id effects of one pass of the logger middleware:
the resolved identifier, the response headers it sets, the context user
values it stores, and the base attributes prepended to the emitted log
record. -/
structure MiddlewareEffects where
  requestID : String
  respHeaders : List (String × String)
  userValues : List (String × String)
  baseAttributes : List (String × String)

/-- The request-id handling of `LoggerMiddlewareWithConfig` in
`src/logger_middleware.go`: read the `X-Request-Id` inbound header, generate
a fresh UUID when it is empty (the generator's output is the `freshUUID`
parameter), store the id under `kit.request_id`, echo it as the
`X-Request-ID` response header, and put `request_id` into the log record's
base attributes. -/
def loggerMiddlewareRequestID (inboundHeaders : List (String × String))
    (freshUUID : String) : MiddlewareEffects :=
  let rid0 := headerGet inboundHeaders RequestIDHeaderKey
  let requestID := if rid0 == "" then freshUUID else rid0
  { requestID := requestID,
    respHeaders := [("X-Request-ID", requestID)],
    userValues := [("kit.request_id", requestID)],
    baseAttributes := [("request_id", requestID)] }

/-- A registry holding one sentinel, used to exercise the joined-errors
branch of `Registry.Get`. -/
def sentinelRegistry : Responseerror.Registry :=
  Responseerror.addReg [] (some (.base "sentinel")) "ERR-B001" [400]

/-!  Theorems settling the claims. -/

/-- C1 (counterexample): the claim fails when the unwrap chain also contains
a domain `*Error` — `NewResponseError` checks `*Error` before
`*ValidationErrors`, so `NewErrorf(code, ...).WrapCause(validationErrs)`
(the README's own usage pattern) gets the domain code, not
`"VALIDATION"`. -/
theorem newResponseError_domain_wins_over_validation :
    (NewResponseError 422
      ((NewErrorf "X" "m").wrapCause (.validation "validation failed" ["v1"]))).code
      ≠ "VALIDATION" := by decide

/-- C1 (amended): for every error whose unwrap chain reaches a
`*ValidationErrors` and contains no domain `*Error`, `NewResponseError`
returns code `"VALIDATION"`, the validation summary as message, and the
validation list as details. -/
theorem newResponseError_validation_branch (status : Int) (err : GoError)
    (msg : String) (vs : List String)
    (hd : err.findDomain = none) (hv : err.findValidation = some (msg, vs)) :
    NewResponseError status err =
      { code := "VALIDATION", status := status, message := msg, cause := "",
        details := vs, err := err } := by
  unfold NewResponseError
  rw [hd, hv]

/-- C1 (witness): the validation branch at a concrete input. -/
theorem newResponseError_validation_branch_witness :
    NewResponseError 422 (.validation "validation failed" ["f1", "f2"]) =
      { code := "VALIDATION", status := 422, message := "validation failed", cause := "",
        details := ["f1", "f2"], err := .validation "validation failed" ["f1", "f2"] } :=
  newResponseError_validation_branch 422 _ _ _ rfl rfl

/-- C3: for every error whose unwrap chain contains neither a domain `*Error`
nor a `*ValidationErrors`, `NewResponseError` returns code `"UNKNOWN"`, the
fixed non-empty generic message (independent of the error), and the original
error's text as cause. -/
theorem newResponseError_unknown_branch (status : Int) (err : GoError)
    (hd : err.findDomain = none) (hv : err.findValidation = none) :
    NewResponseError status err =
      { code := "UNKNOWN", status := status, message := unknownMessage,
        cause := err.errString, details := [], err := err } ∧
    unknownMessage ≠ "" := by
  constructor
  · unfold NewResponseError
    rw [hd, hv]
  · decide

/-- C3 (witness): the unknown branch at a concrete input. -/
theorem newResponseError_unknown_branch_witness :
    NewResponseError 500 (.base "boom") =
      { code := "UNKNOWN", status := 500, message := unknownMessage,
        cause := "boom", details := [], err := .base "boom" } ∧
    unknownMessage ≠ "" :=
  newResponseError_unknown_branch 500 (.base "boom") rfl rfl

/-- C5 (counterexample): `NewResponseError` copies the domain error's code
verbatim, so the `nil`-cause empty-code domain error `NewErrorf("", ...)`
yields an empty code, not the `"UNKNOWN"` fallback. -/
theorem newResponseError_empty_domain_code :
    (NewResponseError 500 (NewErrorf "" "boom")).code = "" := rfl

/-- C5 (amended): the fallback applies only to `NewHTTPError`'s slug — an
empty slug becomes `"unknown-error"` (with the error's own text as message,
not a generic one) — while `NewResponseError` returns the domain error's
code unchanged, empty or not. -/
theorem emptyCode_fallback_only_for_httpError (status : Int) (err : Option GoError)
    (e : GoError) (code msg : String) (d : List String) (c : Option GoError) :
    (NewHTTPError status "" err).slug = "unknown-error" ∧
    (NewHTTPError status "" (some e)).message = e.errString ∧
    (NewResponseError status (.domain code msg d c)).code = code :=
  ⟨rfl, rfl, rfl⟩

/-- C6: after any construction and any sequence of `Field`/`Err`,
`AddValidation` or `AddValidations` steps, `HasValidations` is `true` iff
the validations map is non-empty. -/
theorem hasValidations_iff_nonempty (message : String)
    (validations : List (String × String)) (ops : List VOp) :
    (ValidationError.applyOps (NewValidationError message validations) ops).hasValidations
        = true
      ↔ (ValidationError.applyOps (NewValidationError message validations) ops).validations
        ≠ [] := by
  simp [ValidationError.hasValidations, List.length_pos]

/-- C6 (witness): a concrete append sequence on an initially empty error. -/
theorem hasValidations_iff_nonempty_witness :
    (ValidationError.applyOps (NewValidationError "m" [])
      [.field "f", .errOp "v"]).hasValidations = true :=
  (hasValidations_iff_nonempty "m" [] [.field "f", .errOp "v"]).mpr (by decide)

/-- C7: a zero status given to `NewHTTPError` becomes 500, and
`responseerror.New` with no variadic status argument produces status 500. -/
theorem defaultStatusIs500 (slug : String) (err : Option GoError) (e : GoError)
    (code : String) (r : Responseerror.RespError)
    (h : Responseerror.New (some e) code [] = some r) :
    (NewHTTPError 0 slug err).status = 500 ∧ r.statusCode = 500 := by
  constructor
  · rfl
  · by_cases hc : code = ""
    · simp [Responseerror.New, hc] at h
    · simp [Responseerror.New, hc] at h
      rw [← h]

/-- C7 (witness): the defaults at concrete inputs. -/
theorem defaultStatusIs500_witness :
    (NewHTTPError 0 "s" none).status = 500 ∧
    ({ code := "ERR-I000", category := "internal", message := "x", details := [],
       statusCode := 500, err := some (.base "x") } : Responseerror.RespError).statusCode
      = 500 :=
  defaultStatusIs500 "s" none (.base "x") "ERR-I000" _ rfl

/-- C8: the logger middleware uses the inbound `X-Request-Id` header as the
request identifier when non-empty and the fresh UUID otherwise, and that
same identifier is echoed as the `X-Request-ID` response header and placed
as the `request_id` attribute of the emitted log record. -/
theorem requestID_propagation (hs : List (String × String)) (u : String) :
    (headerGet hs RequestIDHeaderKey ≠ "" →
      (loggerMiddlewareRequestID hs u).requestID = headerGet hs RequestIDHeaderKey) ∧
    (headerGet hs RequestIDHeaderKey = "" →
      (loggerMiddlewareRequestID hs u).requestID = u) ∧
    (loggerMiddlewareRequestID hs u).respHeaders =
      [("X-Request-ID", (loggerMiddlewareRequestID hs u).requestID)] ∧
    (loggerMiddlewareRequestID hs u).baseAttributes =
      [("request_id", (loggerMiddlewareRequestID hs u).requestID)] := by
  refine ⟨fun h => ?_, fun h => ?_, rfl, rfl⟩
  · simp [loggerMiddlewareRequestID, h]
  · simp [loggerMiddlewareRequestID, h]

/-- C8 (witness): both header cases at concrete inputs. -/
theorem requestID_propagation_witness :
    (loggerMiddlewareRequestID [("X-Request-Id", "abc")] "fresh").requestID = "abc" ∧
    (loggerMiddlewareRequestID [] "fresh").requestID = "fresh" :=
  ⟨(requestID_propagation [("X-Request-Id", "abc")] "fresh").1 (by decide),
   (requestID_propagation [] "fresh").2.1 (by decide)⟩

/-- C9: `Registry.Get` evaluated where the only registered sentinel is the
last element of a joined error: the loop reads `unwrappedErrs[i+1]` with no
bounds check, an index-out-of-range panic (modelled as `none`), instead of
returning a `ResponseError`. -/
theorem registryGet_joined_last_sentinel_panics :
    Responseerror.registryGet sentinelRegistry
      (.joined [.base "other", .base "sentinel"]) = none := rfl

/-- C10: `responseerror.New` and the map-detail revision's
`NewResponseError` return `nil` whenever the error is `nil` or the code is
empty, for any status arguments. -/
theorem newReturnsNilOnInvalidInputs :
    (∀ code status, Responseerror.New none code status = none) ∧
    (∀ e status, Responseerror.New e "" status = none) ∧
    (∀ code status, NewResponseErrorMapDetail none code status = none) ∧
    (∀ e status, NewResponseErrorMapDetail e "" status = none) := by
  refine ⟨fun _ _ => rfl, fun e _ => ?_, fun _ _ => rfl, fun e _ => ?_⟩
  · cases e with
    | none => rfl
    | some e => simp [Responseerror.New]
  · cases e with
    | none => rfl
    | some e => simp [NewResponseErrorMapDetail]

section
open Responseerror

/-- When the error is not a `ResponseError`, is not itself registered and
its single-level unwrap is not registered, `Registry.Get` proceeds to the
joined-errors branch. -/
theorem registryGet_eq_joined (r : Registry) (err : GoError)
    (hre : findRespError err = none) (h0 : lookupReg r err = none)
    (h1 : err.unwrapOne.bind (lookupReg r) = none) :
    registryGet r err = registryGetJoined r err (extractDetails err) := by
  cases hu : err.unwrapOne with
  | none =>
    unfold registryGet
    rw [hre, h0, hu]
  | some u =>
    rw [hu] at h1
    simp only [Option.some_bind] at h1
    unfold registryGet
    rw [hre, h0, hu]
    simp only [h1]

/-- With no registered element in the joined error (or no joined error at
all), the joined branch falls through to the default responses. -/
theorem registryGetJoined_no_match (r : Registry) (err : GoError)
    (d : List (String × String))
    (h2 : (findJoined err).bind (firstRegistered r) = none) :
    registryGetJoined r err d = registryFallback r err d := by
  cases hj : findJoined err with
  | none =>
    unfold registryGetJoined
    rw [hj]
  | some es =>
    rw [hj] at h2
    simp only [Option.some_bind] at h2
    unfold registryGetJoined
    rw [hj]
    simp only [h2]

/-- The default branch keeps the registry unchanged and yields `ERR-I000`
with status 500 when no details were extracted, else `ERR-V001` with
status 422 carrying the details. -/
theorem registryFallback_spec (r : Registry) (err : GoError)
    (d : List (String × String)) :
    (registryFallback r err d).map Prod.snd = some r ∧
    (d.isEmpty = true →
      (registryFallback r err d).map (fun p => (p.1.code, p.1.statusCode))
        = some ("ERR-I000", 500)) ∧
    (d.isEmpty = false →
      (registryFallback r err d).map (fun p => (p.1.code, p.1.statusCode, p.1.details))
        = some ("ERR-V001", 422, d)) := by
  unfold registryFallback
  cases hd : d.isEmpty <;> simp [New, hd]

/-- C2 (counterexample): a registered sentinel two `fmt.Errorf` wraps deep
is reachable by recursive unwrapping, yet `Registry.Get` returns the
internal-class fallback `ERR-I000` instead of the registered `ERR-B001`
response — the lookup unwraps a single level only. -/
theorem registryGet_misses_deep_sentinel :
    (lookupReg sentinelRegistry (.base "sentinel")).map (fun t => t.code)
      = some "ERR-B001" ∧
    (registryGet sentinelRegistry
        (.wrap "a: " (.wrap "b: " (.base "sentinel")))).map (fun p => p.1.code)
      = some "ERR-I000" :=
  ⟨rfl, rfl⟩

/-- C2 (amended): for an error that is not (and does not unwrap to) a
`ResponseError`, `Registry.Get` matches only the error itself, its
single-level `errors.Unwrap`, or the direct elements of the first joined
node (first match wins, and a match at the last position panics); with no
match it falls back to `ERR-V001`/422 when map-based validation details
were extracted from the error itself, else `ERR-I000`/500, leaving the
registry unchanged. -/
theorem registryGet_characterization (r : Registry) (err : GoError)
    (hre : findRespError err = none) :
    (∀ t, lookupReg r err = some t →
      registryGet r err =
        some ({ t with details := extractDetails err },
              setReg r err { t with details := extractDetails err })) ∧
    (lookupReg r err = none →
      ∀ u t, err.unwrapOne = some u → lookupReg r u = some t →
        registryGet r err =
          some
            ({ t with message := err.errString, details := extractDetails err },
             setReg r u
               { t with message := err.errString, details := extractDetails err })) ∧
    (lookupReg r err = none → err.unwrapOne.bind (lookupReg r) = none →
      ∀ es i key t, findJoined err = some es → firstRegistered r es = some (i, key, t) →
        (∀ nxt, es.get? (i + 1) = some nxt →
          registryGet r err =
            some
              ({ t with message := t.message ++ ": " ++ nxt.errString, details := extractDetails err },
               setReg r key
                 { t with message := t.message ++ ": " ++ nxt.errString, details := extractDetails err })) ∧
        (es.get? (i + 1) = none → registryGet r err = none)) ∧
    (lookupReg r err = none → err.unwrapOne.bind (lookupReg r) = none →
      (findJoined err).bind (firstRegistered r) = none →
      (registryGet r err).map Prod.snd = some r ∧
      ((extractDetails err).isEmpty = true →
        (registryGet r err).map (fun p => (p.1.code, p.1.statusCode))
          = some ("ERR-I000", 500)) ∧
      ((extractDetails err).isEmpty = false →
        (registryGet r err).map (fun p => (p.1.code, p.1.statusCode, p.1.details))
          = some ("ERR-V001", 422, extractDetails err))) := by
  refine ⟨?_, ?_, ?_, ?_⟩
  · intro t ht
    unfold registryGet
    rw [hre, ht]
  · intro h0 u t hu ht
    unfold registryGet
    rw [hre, h0, hu]
    simp only [ht]
  · intro h0 h1 es i key t hj hf
    have hred := registryGet_eq_joined r err hre h0 h1
    constructor
    · intro nxt hn
      rw [hred]
      unfold registryGetJoined
      rw [hj]
      simp only [hf, hn]
    · intro hn
      rw [hred]
      unfold registryGetJoined
      rw [hj]
      simp only [hf, hn]
  · intro h0 h1 h2
    rw [registryGet_eq_joined r err hre h0 h1, registryGetJoined_no_match r err _ h2]
    exact registryFallback_spec r err _

/-- C2 (witness): the direct-match branch at a concrete registry. -/
theorem registryGet_characterization_witness :
    registryGet sentinelRegistry (.base "sentinel") =
      some ({ code := "ERR-B001", category := "business", message := "sentinel",
              details := [], statusCode := 400, err := some (.base "sentinel") },
            setReg sentinelRegistry (.base "sentinel")
              { code := "ERR-B001", category := "business", message := "sentinel",
                details := [], statusCode := 400, err := some (.base "sentinel") }) :=
  (registryGet_characterization sentinelRegistry (.base "sentinel") rfl).1 _ rfl

/-- C4 (counterexample): `Registry.Get` mutates the registered template on
the joined-errors branch — its `message` accumulates, so two successive
calls with the same argument return different results. -/
theorem registryGet_not_idempotent :
    ((registryGet sentinelRegistry (.joined [.base "sentinel", .base "extra"])).map
        (fun p => p.1.message) = some "sentinel: extra") ∧
    ((registryGet sentinelRegistry (.joined [.base "sentinel", .base "extra"])).bind
        (fun p => (registryGet p.2 (.joined [.base "sentinel", .base "extra"])).map
          (fun q => q.1.message)) = some "sentinel: extra: extra") :=
  ⟨rfl, rfl⟩

/-- C4 (amended): `Registry.Get` is pure only when nothing matches: with no
`ResponseError` in the chain and no registered sentinel at the error, its
single-level unwrap, or the joined elements, it returns a freshly built
fallback response (`ERR-I000` or `ERR-V001`) and leaves the registry — and
hence every registered template — unchanged, so repeated calls agree; on
the match branches it mutates the stored template's details and message. -/
theorem registryGet_pure_on_fallback (r : Registry) (err : GoError)
    (hre : findRespError err = none) (h0 : lookupReg r err = none)
    (h1 : err.unwrapOne.bind (lookupReg r) = none)
    (h2 : (findJoined err).bind (firstRegistered r) = none) :
    (registryGet r err).map Prod.snd = some r ∧
    ((registryGet r err).map (fun p => p.1.code) = some "ERR-I000" ∨
     (registryGet r err).map (fun p => p.1.code) = some "ERR-V001") := by
  rw [registryGet_eq_joined r err hre h0 h1, registryGetJoined_no_match r err _ h2]
  unfold registryFallback
  cases hd : (extractDetails err).isEmpty <;> simp [New, hd]

/-- C4 (witness): an unmatched error at a concrete registry. -/
theorem registryGet_pure_on_fallback_witness :
    (registryGet sentinelRegistry (.base "nope")).map Prod.snd = some sentinelRegistry ∧
    ((registryGet sentinelRegistry (.base "nope")).map (fun p => p.1.code)
        = some "ERR-I000" ∨
     (registryGet sentinelRegistry (.base "nope")).map (fun p => p.1.code)
        = some "ERR-V001") :=
  registryGet_pure_on_fallback sentinelRegistry (.base "nope") rfl rfl rfl rfl

end

end Kit



